import Mathlib

/-!
# TTGO T-Beam firmware: the `Task1000ms` duty cycle

A shallow embedding of `Source/main/main.cpp`.  The perpetual task `Task1000ms`
is modelled as a step function over its local variables; the calls it makes to
the drivers (display, power manager, position receiver, radio, sleep controller,
logger) are recorded, in program order, as a list of `Event`s.  Values returned
by the drivers are inputs of a step.
-/

namespace TBeam

/-! ## Constants and macros -/

def UINT16_MAX : Nat := 65535

def UINT32_MAX : Nat := 4294967295

def INT32_MAX : Nat := 2147483647

/-- Product of two `unsigned long long` operands (64-bit, wraps modulo `2^64`). -/
def mulU64 (a b : Nat) : Nat := (a * b) % 2 ^ 64

/-- The macro `#define SLEEP_TIME_FROM_SECONDS(seconds) (seconds * 1000 * 1000)`, for an
`unsigned long long` argument: both products are taken left to right in 64-bit
unsigned arithmetic. -/
def SLEEP_TIME_FROM_SECONDS (seconds : Nat) : Nat :=
  mulU64 (mulU64 seconds 1000) 1000

/-- The macro
`#define SLEEP_TIME_FROM_MINUTES(minutes) (SLEEP_TIME_FROM_SECONDS(minutes * 60))`
for an `unsigned long long` literal argument.  After textual expansion the
expression is `minutes * 60 * 1000 * 1000`, evaluated left to right. -/
def SLEEP_TIME_FROM_MINUTES (minutes : Nat) : Nat :=
  SLEEP_TIME_FROM_SECONDS (mulU64 minutes 60)

/-! ## Driver calls recorded by the model -/

/-- Modelled from the spec: the enumeration with the values `Axp192_On` and
`Axp192_Off` is declared in `Axp192.h`, which is not part of the sources; the spec
gives a power rail the two states on and off. -/
inductive Axp192_StateType where
  | Axp192_Off
  | Axp192_On
deriving DecidableEq, Repr

/-- Modelled from the spec: the type `Neo6_GeodeticPositionSolutionType` is declared
in `Neo6.h`, which is not part of the sources; the spec calls it a fixed-size
geodetic solution blob.  It is kept as the bytes of that blob. -/
structure Neo6_GeodeticPositionSolutionType where
  bytes : List Nat
deriving DecidableEq, Repr

/-- One call made by the task to a collaborator, with its arguments. -/
inductive Event where
  /-- The call `printf("Free stack in %s: %d Bytes\n", pcTaskGetTaskName(NULL), n)`. -/
  | printf_FreeStack (currentRemainingStack : Nat)
  | Display_Clear
  | Display_DrawString (x y : Nat) (text : List Char)
  | Display_SendBuffer
  | Display_DeInit
  | Neo6_GetGeodeticPositionSolution
  /-- The call `ESP_LOGI(__FUNCTION__, msg)`. -/
  | ESP_LOGI (msg : String)
  /-- The call `ttn.transmitMessage((uint8_t*)&payload, sizeof(payload), port, confirmed)`. -/
  | ttn_transmitMessage (payload : Neo6_GeodeticPositionSolutionType) (port : Nat)
      (confirmed : Bool)
  | Axp192_SetDcDc1State (state : Axp192_StateType)
  | Axp192_SetLdo2State (state : Axp192_StateType)
  | Axp192_SetLdo3State (state : Axp192_StateType)
  | Axp192_DeInit
  /-- The call `esp_deep_sleep(time_in_us)`; it does not return. -/
  | esp_deep_sleep (time_in_us : Nat)
deriving DecidableEq, Repr

/-! ## `snprintf` into `char stringBuffer[20]` -/

/-- Decimal digits of a natural number, as `printf` writes them. -/
def decimal (n : Nat) : List Char := Nat.toDigits 10 n

/-- The argument of a `%d` conversion is read as a 32-bit `int`: a `uint32_t`
argument of `2^31` or more is printed as the negative number with the same bits. -/
def asInt32 (v : Nat) : Int :=
  if v % 2 ^ 32 < 2 ^ 31 then (v % 2 ^ 32 : Nat) else (v % 2 ^ 32 : Nat) - 2 ^ 32

/-- The characters of an `int` printed by `%d` with no width. -/
def intChars (v : Int) : List Char :=
  if v < 0 then '-' :: decimal v.natAbs else decimal v.natAbs

/-- The conversion `%<width>d`: the number right-aligned, padded on the left with
spaces up to the minimum field width `width`; longer numbers are written whole. -/
def formatD (width : Nat) (v : Int) : List Char :=
  List.replicate (width - (intChars v).length) ' ' ++ intChars v

/-- The call `snprintf(buf, size, "<label>%<width>d<suffix>", v)`: what is left in the
buffer is the formatted text cut to `size - 1` characters (the last byte holds the
terminating NUL). -/
def snprintf (size : Nat) (label : String) (width : Nat) (suffix : String) (v : Int) :
    List Char :=
  (label.toList ++ formatD width v ++ suffix.toList).take (size - 1)

/-- The value of `sizeof(stringBuffer)` for `char stringBuffer[20]`. -/
def sizeof_stringBuffer : Nat := 20

/-! ## `TaskStackMonitoring` -/

/-- The function `TaskStackMonitoring(lastRemainingStack)`.  The first argument is the value
returned by `uxTaskGetStackHighWaterMark(NULL)` during the call.  The result is the
log output of the call and the returned value. -/
def TaskStackMonitoring (uxTaskGetStackHighWaterMark : Nat) (lastRemainingStack : Nat) :
    List Event × Nat :=
  let currentRemainingStack := uxTaskGetStackHighWaterMark
  (if currentRemainingStack ≠ lastRemainingStack then
      [Event.printf_FreeStack currentRemainingStack]
    else [],
   currentRemainingStack)

/-! ## `Task1000ms` -/

/-- The local variables of `Task1000ms` that live across loop iterations. -/
structure TaskState where
  remainingTaskStack : Nat
  lastBatteryVoltage : Nat
  lastChargeCurrent : Nat
  lastDischargeCurrent : Nat
  lastBatteryCharge : Nat
  Task1000ms_SecondCounter : Nat
deriving DecidableEq, Repr

/-- The initialisers at the top of `Task1000ms`. -/
def Task1000ms_init : TaskState :=
  { remainingTaskStack := INT32_MAX
    lastBatteryVoltage := UINT16_MAX
    lastChargeCurrent := UINT16_MAX
    lastDischargeCurrent := UINT16_MAX
    lastBatteryCharge := UINT32_MAX
    Task1000ms_SecondCounter := 0 }

/-- What the collaborators return during one loop iteration. -/
structure TickInput where
  /-- Value of `uxTaskGetStackHighWaterMark(NULL)`. -/
  stackHighWaterMark : Nat
  /-- Value of `Axp192_GetBatteryVoltage()`. -/
  batteryVoltage : Nat
  /-- Value of `Axp192_GetBatteryChargeCurrent()`. -/
  chargeCurrent : Nat
  /-- Value of `Axp192_GetBatteryDischargeCurrent()`. -/
  dischargeCurrent : Nat
  /-- Value of `Axp192_GetBatteryCharge()`. -/
  batteryCharge : Nat
  /-- Outcome of `Neo6_GetGeodeticPositionSolution`, should it be called:
  `some fix` for `Neo6_Success`, `none` for any other status. -/
  position : Option Neo6_GeodeticPositionSolutionType
deriving DecidableEq, Repr

/-- The four values read from the power manager in one iteration, as stored in the
`uint16_t` / `uint32_t` locals `current...`. -/
structure TelemetrySample where
  batteryVoltage : Nat
  chargeCurrent : Nat
  dischargeCurrent : Nat
  batteryCharge : Nat
deriving DecidableEq, Repr

/-- The assignments `uint16_t currentBatteryVoltage = Axp192_GetBatteryVoltage();` and
the three that follow. -/
def readTelemetry (i : TickInput) : TelemetrySample :=
  { batteryVoltage := i.batteryVoltage % 2 ^ 16
    chargeCurrent := i.chargeCurrent % 2 ^ 16
    dischargeCurrent := i.dischargeCurrent % 2 ^ 16
    batteryCharge := i.batteryCharge % 2 ^ 32 }

/-- The values `last...` of a state, as a sample. -/
def TaskState.lastSample (s : TaskState) : TelemetrySample :=
  { batteryVoltage := s.lastBatteryVoltage
    chargeCurrent := s.lastChargeCurrent
    dischargeCurrent := s.lastDischargeCurrent
    batteryCharge := s.lastBatteryCharge }

/-- The body of the `if` that redraws the display. -/
def redraw (cur : TelemetrySample) : List Event :=
  [ Event.Display_Clear,
    Event.Display_DrawString 0 15
      (snprintf sizeof_stringBuffer "Ubat: " 4 " mV" (cur.batteryVoltage : Nat)),
    Event.Display_DrawString 0 30
      (snprintf sizeof_stringBuffer "Icharge: " 4 " mA" (cur.chargeCurrent : Nat)),
    Event.Display_DrawString 0 45
      (snprintf sizeof_stringBuffer "Ibat: " 4 " mA" (cur.dischargeCurrent : Nat)),
    Event.Display_DrawString 0 60
      (snprintf sizeof_stringBuffer "Cbat: " 5 " mAh" (asInt32 cur.batteryCharge)),
    Event.Display_SendBuffer ]

/-- The change detection and display update of one iteration. -/
def displayUpdate (s : TaskState) (cur : TelemetrySample) : List Event :=
  if cur.batteryVoltage ≠ s.lastBatteryVoltage ∨
      cur.chargeCurrent ≠ s.lastChargeCurrent ∨
      cur.dischargeCurrent ≠ s.lastDischargeCurrent ∨
      cur.batteryCharge ≠ s.lastBatteryCharge then
    redraw cur
  else []

/-- The block guarded by `(Task1000ms_SecondCounter % 100) == 0`. -/
def transmitGate (counter : Nat) (position : Option Neo6_GeodeticPositionSolutionType) :
    List Event :=
  if counter % 100 = 0 then
    Event.Neo6_GetGeodeticPositionSolution ::
      (match position with
       | some geodeticPositionSolution =>
         [Event.ESP_LOGI "Sending TTN data",
          Event.ttn_transmitMessage geodeticPositionSolution 1 false]
       | none => [])
  else []

/-- The body of the block guarded by `(Task1000ms_SecondCounter % 150) == 0`. -/
def shutdownSequence : List Event :=
  [ Event.ESP_LOGI "Shutdown",
    Event.Display_DeInit,
    Event.Axp192_SetLdo2State Axp192_StateType.Axp192_Off,
    Event.Axp192_SetLdo3State Axp192_StateType.Axp192_Off,
    Event.Axp192_DeInit,
    Event.esp_deep_sleep (SLEEP_TIME_FROM_MINUTES 60) ]

/-- The block guarded by `(Task1000ms_SecondCounter % 150) == 0`. -/
def sleepGate (counter : Nat) : List Event :=
  if counter % 150 = 0 then shutdownSequence else []

/-- Outcome of one loop iteration. -/
structure IterationResult where
  /-- the locals at the end of the iteration -/
  state : TaskState
  /-- the calls made, in program order -/
  events : List Event
  /-- whether the iteration ended in `esp_deep_sleep`, which does not return -/
  asleep : Bool
deriving DecidableEq, Repr

/-- One iteration of the `for (;;)` loop of `Task1000ms`, from the return of
`vTaskDelayUntil` to the end of the loop body. -/
def Task1000ms_iteration (s : TaskState) (i : TickInput) : IterationResult :=
  let Task1000ms_SecondCounter := (s.Task1000ms_SecondCounter + 1) % 2 ^ 16
  let monitoring := TaskStackMonitoring i.stackHighWaterMark s.remainingTaskStack
  let cur := readTelemetry i
  { state :=
      { remainingTaskStack := monitoring.2
        lastBatteryVoltage := cur.batteryVoltage
        lastChargeCurrent := cur.chargeCurrent
        lastDischargeCurrent := cur.dischargeCurrent
        lastBatteryCharge := cur.batteryCharge
        Task1000ms_SecondCounter := Task1000ms_SecondCounter }
    events :=
      monitoring.1 ++ displayUpdate s cur ++
        transmitGate Task1000ms_SecondCounter i.position ++
        sleepGate Task1000ms_SecondCounter
    asleep := decide (Task1000ms_SecondCounter % 150 = 0) }

/-- What is observed of one iteration of a running task. -/
structure TickRecord where
  /-- value of `Task1000ms_SecondCounter` during the iteration (after the `++`) -/
  counter : Nat
  /-- the calls made, in program order -/
  events : List Event
  /-- whether the iteration ended in `esp_deep_sleep` -/
  asleep : Bool
deriving DecidableEq, Repr

/-- The record of an iteration. -/
def IterationResult.record (r : IterationResult) : TickRecord :=
  { counter := r.state.Task1000ms_SecondCounter, events := r.events, asleep := r.asleep }

/-- The loop `for (;;)` run from state `s`, the list giving what the collaborators
return in each successive iteration.  The loop goes on as long as inputs are supplied
and stops after the iteration that calls `esp_deep_sleep`. -/
def Task1000ms_loop (s : TaskState) : List TickInput → List TickRecord
  | [] => []
  | i :: rest =>
    let r := Task1000ms_iteration s i
    r.record :: (if r.asleep then [] else Task1000ms_loop r.state rest)

/-- One process lifetime of `Task1000ms`: the loop run from the initial values. -/
def Task1000ms (inputs : List TickInput) : List TickRecord :=
  Task1000ms_loop Task1000ms_init inputs

/-! ## Observations on a list of calls -/

/-- Calls that draw on the display: `Display_Clear`, `Display_DrawString` and
`Display_SendBuffer`.  (`Display_DeInit` switches the display off; it belongs to the
shutdown sequence and is classified by `isShutdownAction`.) -/
def isDisplayDraw : Event → Bool
  | Event.Display_Clear => true
  | Event.Display_DrawString _ _ _ => true
  | Event.Display_SendBuffer => true
  | _ => false

/-- Calls to the display driver of any kind: the drawing calls and `Display_DeInit`. -/
def isDisplayCall : Event → Bool
  | Event.Display_Clear => true
  | Event.Display_DrawString _ _ _ => true
  | Event.Display_SendBuffer => true
  | Event.Display_DeInit => true
  | _ => false

/-- Calls of `ttn.transmitMessage`. -/
def isTransmit : Event → Bool
  | Event.ttn_transmitMessage _ _ _ => true
  | _ => false

/-- Calls of `Neo6_GetGeodeticPositionSolution`. -/
def isPositionQuery : Event → Bool
  | Event.Neo6_GetGeodeticPositionSolution => true
  | _ => false

/-- Calls that act on the DCDC1 rail. -/
def isDcDc1 : Event → Bool
  | Event.Axp192_SetDcDc1State _ => true
  | _ => false

/-- Calls that switch hardware off or put the chip to sleep: display power-off, any
power-rail switch, the release of the power manager, and deep sleep. -/
def isShutdownAction : Event → Bool
  | Event.Display_DeInit => true
  | Event.Axp192_SetDcDc1State _ => true
  | Event.Axp192_SetLdo2State _ => true
  | Event.Axp192_SetLdo3State _ => true
  | Event.Axp192_DeInit => true
  | Event.esp_deep_sleep _ => true
  | _ => false

/-- The stack-margin log line. -/
def isStackLog : Event → Bool
  | Event.printf_FreeStack _ => true
  | _ => false

/-- The values the `last...` locals are initialised with. -/
def sentinel : TelemetrySample :=
  { batteryVoltage := UINT16_MAX
    chargeCurrent := UINT16_MAX
    dischargeCurrent := UINT16_MAX
    batteryCharge := UINT32_MAX }

/-- The counter values of the iterations of a run in which the display was drawn on. -/
def updatedTicks (records : List TickRecord) : List Nat :=
  (records.filter (fun r => r.events.any isDisplayDraw)).map (fun r => r.counter)

/-- All calls of a run, in order. -/
def allEvents (records : List TickRecord) : List Event :=
  (records.map (fun r => r.events)).flatten

/-- The decimal value of `v` right-aligned in a field of `width` characters: the digits
preceded by as many spaces as are needed to reach `width`.  A number with more than
`width` digits is written whole, the field growing to its length. -/
def rightAligned (width : Nat) (v : Nat) : List Char :=
  List.replicate (width - (decimal v).length) ' ' ++ decimal v

/-- Number of calls of one kind made over a run. -/
def countCalls (p : Event → Bool) (records : List TickRecord) : Nat :=
  (records.map (fun r => (r.events.filter p).length)).sum

/-! ## One iteration: which calls are made -/

theorem any_iff_filter_ne_nil (p : Event → Bool) (l : List Event) :
    l.any p = true ↔ l.filter p ≠ [] := by
  induction l with
  | nil => simp
  | cons a t ih =>
    by_cases ha : p a = true
    · simp [List.filter_cons, ha]
    · simp [List.filter_cons, ha, ih]

theorem lastSample_init : Task1000ms_init.lastSample = sentinel := rfl

theorem sample_ne_iff (s : TaskState) (cur : TelemetrySample) :
    (cur.batteryVoltage ≠ s.lastBatteryVoltage ∨
      cur.chargeCurrent ≠ s.lastChargeCurrent ∨
      cur.dischargeCurrent ≠ s.lastDischargeCurrent ∨
      cur.batteryCharge ≠ s.lastBatteryCharge) ↔ cur ≠ s.lastSample := by
  cases cur
  simp only [TaskState.lastSample, ne_eq, TelemetrySample.mk.injEq]
  tauto

theorem displayUpdate_eq (s : TaskState) (cur : TelemetrySample) :
    displayUpdate s cur = if cur ≠ s.lastSample then redraw cur else [] := by
  unfold displayUpdate
  by_cases h : cur ≠ s.lastSample
  · rw [if_pos h, if_pos ((sample_ne_iff s cur).2 h)]
  · rw [if_neg h, if_neg (fun h2 => h ((sample_ne_iff s cur).1 h2))]

theorem monitoring_events (w l : Nat) :
    (TaskStackMonitoring w l).1 = if w ≠ l then [Event.printf_FreeStack w] else [] := rfl

theorem iteration_events (s : TaskState) (i : TickInput) :
    (Task1000ms_iteration s i).events =
      (TaskStackMonitoring i.stackHighWaterMark s.remainingTaskStack).1 ++
        displayUpdate s (readTelemetry i) ++
        transmitGate ((s.Task1000ms_SecondCounter + 1) % 2 ^ 16) i.position ++
        sleepGate ((s.Task1000ms_SecondCounter + 1) % 2 ^ 16) := rfl

theorem iteration_counter (s : TaskState) (i : TickInput) :
    (Task1000ms_iteration s i).state.Task1000ms_SecondCounter =
      (s.Task1000ms_SecondCounter + 1) % 2 ^ 16 := rfl

theorem iteration_lastSample (s : TaskState) (i : TickInput) :
    (Task1000ms_iteration s i).state.lastSample = readTelemetry i := rfl

theorem iteration_asleep (s : TaskState) (i : TickInput) :
    (Task1000ms_iteration s i).asleep =
      decide ((s.Task1000ms_SecondCounter + 1) % 2 ^ 16 % 150 = 0) := rfl

theorem filter_draw_iteration (s : TaskState) (i : TickInput) :
    (Task1000ms_iteration s i).events.filter isDisplayDraw =
      if readTelemetry i ≠ s.lastSample then redraw (readTelemetry i) else [] := by
  rw [iteration_events, displayUpdate_eq, monitoring_events]
  simp only [List.filter_append]
  have h1 : (if i.stackHighWaterMark ≠ s.remainingTaskStack then
      [Event.printf_FreeStack i.stackHighWaterMark] else []).filter isDisplayDraw = [] := by
    split <;> simp [isDisplayDraw]
  have h2 : ∀ c, (transmitGate c i.position).filter isDisplayDraw = [] := by
    intro c
    unfold transmitGate
    split
    · cases i.position <;> simp [isDisplayDraw]
    · rfl
  have h3 : ∀ c, (sleepGate c).filter isDisplayDraw = [] := by
    intro c
    unfold sleepGate shutdownSequence
    split <;> simp [isDisplayDraw]
  rw [h1, h2, h3]
  split
  · simp [redraw, isDisplayDraw]
  · simp

theorem filter_transmit_iteration (s : TaskState) (i : TickInput) :
    (Task1000ms_iteration s i).events.filter isTransmit =
      if (s.Task1000ms_SecondCounter + 1) % 2 ^ 16 % 100 = 0 then
        (match i.position with
         | some fix => [Event.ttn_transmitMessage fix 1 false]
         | none => [])
      else [] := by
  rw [iteration_events, displayUpdate_eq, monitoring_events]
  simp only [List.filter_append]
  have h1 : (if i.stackHighWaterMark ≠ s.remainingTaskStack then
      [Event.printf_FreeStack i.stackHighWaterMark] else []).filter isTransmit = [] := by
    split <;> simp [isTransmit]
  have h2 : (if readTelemetry i ≠ s.lastSample then redraw (readTelemetry i)
      else []).filter isTransmit = [] := by
    split <;> simp [redraw, isTransmit]
  have h3 : ∀ c, (sleepGate c).filter isTransmit = [] := by
    intro c
    unfold sleepGate shutdownSequence
    split <;> simp [isTransmit]
  rw [h1, h2, h3]
  unfold transmitGate
  split
  · cases i.position <;> simp [isTransmit]
  · simp

theorem filter_query_iteration (s : TaskState) (i : TickInput) :
    (Task1000ms_iteration s i).events.filter isPositionQuery =
      if (s.Task1000ms_SecondCounter + 1) % 2 ^ 16 % 100 = 0 then
        [Event.Neo6_GetGeodeticPositionSolution]
      else [] := by
  rw [iteration_events, displayUpdate_eq, monitoring_events]
  simp only [List.filter_append]
  have h1 : (if i.stackHighWaterMark ≠ s.remainingTaskStack then
      [Event.printf_FreeStack i.stackHighWaterMark] else []).filter isPositionQuery = [] := by
    split <;> simp [isPositionQuery]
  have h2 : (if readTelemetry i ≠ s.lastSample then redraw (readTelemetry i)
      else []).filter isPositionQuery = [] := by
    split <;> simp [redraw, isPositionQuery]
  have h3 : ∀ c, (sleepGate c).filter isPositionQuery = [] := by
    intro c
    unfold sleepGate shutdownSequence
    split <;> simp [isPositionQuery]
  rw [h1, h2, h3]
  unfold transmitGate
  split
  · cases i.position <;> simp [isPositionQuery]
  · simp

theorem filter_shutdown_iteration (s : TaskState) (i : TickInput) :
    (Task1000ms_iteration s i).events.filter isShutdownAction =
      if (s.Task1000ms_SecondCounter + 1) % 2 ^ 16 % 150 = 0 then
        [Event.Display_DeInit,
         Event.Axp192_SetLdo2State Axp192_StateType.Axp192_Off,
         Event.Axp192_SetLdo3State Axp192_StateType.Axp192_Off,
         Event.Axp192_DeInit,
         Event.esp_deep_sleep (SLEEP_TIME_FROM_MINUTES 60)]
      else [] := by
  rw [iteration_events, displayUpdate_eq, monitoring_events]
  simp only [List.filter_append]
  have h1 : (if i.stackHighWaterMark ≠ s.remainingTaskStack then
      [Event.printf_FreeStack i.stackHighWaterMark] else []).filter isShutdownAction = [] := by
    split <;> simp [isShutdownAction]
  have h2 : (if readTelemetry i ≠ s.lastSample then redraw (readTelemetry i)
      else []).filter isShutdownAction = [] := by
    split <;> simp [redraw, isShutdownAction]
  have h3 : ∀ c, (transmitGate c i.position).filter isShutdownAction = [] := by
    intro c
    unfold transmitGate
    split
    · cases i.position <;> simp [isShutdownAction]
    · rfl
  rw [h1, h2, h3]
  unfold sleepGate shutdownSequence
  split <;> simp [isShutdownAction]

theorem filter_dcdc1_iteration (s : TaskState) (i : TickInput) :
    (Task1000ms_iteration s i).events.filter isDcDc1 = [] := by
  rw [iteration_events, displayUpdate_eq, monitoring_events]
  simp only [List.filter_append]
  have h1 : (if i.stackHighWaterMark ≠ s.remainingTaskStack then
      [Event.printf_FreeStack i.stackHighWaterMark] else []).filter isDcDc1 = [] := by
    split <;> simp [isDcDc1]
  have h2 : (if readTelemetry i ≠ s.lastSample then redraw (readTelemetry i)
      else []).filter isDcDc1 = [] := by
    split <;> simp [redraw, isDcDc1]
  have h3 : ∀ c, (transmitGate c i.position).filter isDcDc1 = [] := by
    intro c
    unfold transmitGate
    split
    · cases i.position <;> simp [isDcDc1]
    · rfl
  have h4 : ∀ c, (sleepGate c).filter isDcDc1 = [] := by
    intro c
    unfold sleepGate shutdownSequence
    split <;> simp [isDcDc1]
  rw [h1, h2, h3, h4]
  rfl

theorem filter_displaycall_iteration (s : TaskState) (i : TickInput) :
    (Task1000ms_iteration s i).events.filter isDisplayCall =
      (if readTelemetry i ≠ s.lastSample then redraw (readTelemetry i) else []) ++
        (if (s.Task1000ms_SecondCounter + 1) % 2 ^ 16 % 150 = 0 then [Event.Display_DeInit]
         else []) := by
  rw [iteration_events, displayUpdate_eq, monitoring_events]
  simp only [List.filter_append]
  have h1 : (if i.stackHighWaterMark ≠ s.remainingTaskStack then
      [Event.printf_FreeStack i.stackHighWaterMark] else []).filter isDisplayCall = [] := by
    split <;> simp [isDisplayCall]
  have h2 : ∀ c, (transmitGate c i.position).filter isDisplayCall = [] := by
    intro c
    unfold transmitGate
    split
    · cases i.position <;> simp [isDisplayCall]
    · rfl
  have h3 : ∀ c, (sleepGate c).filter isDisplayCall =
      if c % 150 = 0 then [Event.Display_DeInit] else [] := by
    intro c
    unfold sleepGate shutdownSequence
    split <;> simp [isDisplayCall]
  have h4 : (if readTelemetry i ≠ s.lastSample then redraw (readTelemetry i)
      else []).filter isDisplayCall =
      (if readTelemetry i ≠ s.lastSample then redraw (readTelemetry i) else []) := by
    split <;> simp [redraw, isDisplayCall]
  rw [h1, h2, h3, h4]
  simp

theorem sleepGate_suffix (s : TaskState) (i : TickInput) :
    (if (s.Task1000ms_SecondCounter + 1) % 2 ^ 16 % 150 = 0 then shutdownSequence else [])
      <:+ (Task1000ms_iteration s i).events := by
  rw [iteration_events]
  exact List.suffix_append _ _

theorem filter_stacklog_iteration (s : TaskState) (i : TickInput) :
    (Task1000ms_iteration s i).events.filter isStackLog =
      (TaskStackMonitoring i.stackHighWaterMark s.remainingTaskStack).1 := by
  rw [iteration_events, displayUpdate_eq, monitoring_events]
  simp only [List.filter_append]
  have h1 : (if i.stackHighWaterMark ≠ s.remainingTaskStack then
      [Event.printf_FreeStack i.stackHighWaterMark] else []).filter isStackLog =
      (if i.stackHighWaterMark ≠ s.remainingTaskStack then
      [Event.printf_FreeStack i.stackHighWaterMark] else []) := by
    split <;> simp [isStackLog]
  have h2 : (if readTelemetry i ≠ s.lastSample then redraw (readTelemetry i)
      else []).filter isStackLog = [] := by
    split <;> simp [redraw, isStackLog]
  have h3 : ∀ c, (transmitGate c i.position).filter isStackLog = [] := by
    intro c
    unfold transmitGate
    split
    · cases i.position <;> simp [isStackLog]
    · rfl
  have h4 : ∀ c, (sleepGate c).filter isStackLog = [] := by
    intro c
    unfold sleepGate shutdownSequence
    split <;> simp [isStackLog]
  rw [h1, h2, h3, h4]
  simp

/-! ## Claims about one iteration -/

/-- C1, counterexample. In the iteration that takes the counter from 149 to 150 the
shutdown block calls `Display_DeInit` whatever the samples are.  With a sample equal
to the previous one (4100 mV, 0 mA, 120 mA, 1500 mAh) the iteration still makes one
call to the display driver, `Display_DeInit`; with a sample that differs (4099 mV) it
makes seven: the six calls of the redraw and then `Display_DeInit`. -/
theorem C1_display_deinit_on_tick_150 :
    (Task1000ms_iteration
      { remainingTaskStack := 3000, lastBatteryVoltage := 4100, lastChargeCurrent := 0,
        lastDischargeCurrent := 120, lastBatteryCharge := 1500,
        Task1000ms_SecondCounter := 149 }
      { stackHighWaterMark := 3000, batteryVoltage := 4100, chargeCurrent := 0,
        dischargeCurrent := 120, batteryCharge := 1500, position := none
        }).events.filter isDisplayCall = [Event.Display_DeInit]
    ∧ ((Task1000ms_iteration
      { remainingTaskStack := 3000, lastBatteryVoltage := 4100, lastChargeCurrent := 0,
        lastDischargeCurrent := 120, lastBatteryCharge := 1500,
        Task1000ms_SecondCounter := 149 }
      { stackHighWaterMark := 3000, batteryVoltage := 4099, chargeCurrent := 0,
        dischargeCurrent := 120, batteryCharge := 1500, position := none
        }).events.filter isDisplayCall).length = 7 := by
  decide

/-- C1, amended. In every iteration of `Task1000ms`, whatever the previous sample held
in the `last...` locals and whatever the sample just read, the calls that draw on the
display are made if and only if the two samples differ in at least one of the four
fields (exact equality).  When they differ the drawing calls of the iteration are
exactly one `Display_Clear`, four `Display_DrawString` (at y = 15, 30, 45, 60) and one
`Display_SendBuffer`, in this order; when they are equal there is none.  On the first
iteration the previous sample is the sentinel.  The calls to the display driver of an
iteration are these drawing calls followed, exactly when the counter is a multiple of
150, by the `Display_DeInit` of the shutdown sequence, which does not depend on the
samples: with equal samples and a counter that is not a multiple of 150 no display
call is made at all. -/
theorem C1_display_calls_of_an_iteration (s : TaskState) (i : TickInput) :
    ((Task1000ms_iteration s i).events.filter isDisplayDraw =
      if readTelemetry i ≠ s.lastSample then
        [ Event.Display_Clear,
          Event.Display_DrawString 0 15
            (snprintf 20 "Ubat: " 4 " mV" ((readTelemetry i).batteryVoltage : Nat)),
          Event.Display_DrawString 0 30
            (snprintf 20 "Icharge: " 4 " mA" ((readTelemetry i).chargeCurrent : Nat)),
          Event.Display_DrawString 0 45
            (snprintf 20 "Ibat: " 4 " mA" ((readTelemetry i).dischargeCurrent : Nat)),
          Event.Display_DrawString 0 60
            (snprintf 20 "Cbat: " 5 " mAh" (asInt32 (readTelemetry i).batteryCharge)),
          Event.Display_SendBuffer ]
      else [])
    ∧ ((Task1000ms_iteration s i).events.any isDisplayDraw = true ↔
        readTelemetry i ≠ s.lastSample)
    ∧ Task1000ms_init.lastSample = sentinel
    ∧ (Task1000ms_iteration s i).events.filter isDisplayCall =
        (Task1000ms_iteration s i).events.filter isDisplayDraw ++
          (if (Task1000ms_iteration s i).state.Task1000ms_SecondCounter % 150 = 0 then
            [Event.Display_DeInit] else [])
    ∧ ((Task1000ms_iteration s i).events.any isDisplayCall = true ↔
        (readTelemetry i ≠ s.lastSample ∨
          (Task1000ms_iteration s i).state.Task1000ms_SecondCounter % 150 = 0)) := by
  have h := filter_draw_iteration s i
  refine ⟨h, ?_, rfl, ?_, ?_⟩
  · rw [any_iff_filter_ne_nil, h]
    by_cases hne : readTelemetry i ≠ s.lastSample
    · simp [redraw, hne]
    · simp [hne]
  · rw [h, filter_displaycall_iteration, iteration_counter]
  · rw [any_iff_filter_ne_nil, filter_displaycall_iteration, iteration_counter]
    generalize (s.Task1000ms_SecondCounter + 1) % 2 ^ 16 = t
    by_cases hne : readTelemetry i ≠ s.lastSample
    · simp [redraw, hne]
    · by_cases hc : t % 150 = 0
      · simp [hne, hc]
      · simp [hne, hc]

/-- C2. In every iteration of `Task1000ms`, with `t` the value of
`Task1000ms_SecondCounter` during the iteration and whatever the position query would
return, `ttn.transmitMessage` is called if and only if `t % 100 = 0` and
`Neo6_GetGeodeticPositionSolution` returned success.  When it is called, it is called
exactly once, with the position fix as payload, port 1 and `confirmed = false`; on a
failed fix, and on every other tick, there is no send call. -/
theorem C2_transmit_iff_hundredth_tick_and_fix (s : TaskState) (i : TickInput) :
    ((Task1000ms_iteration s i).events.filter isTransmit =
      if (Task1000ms_iteration s i).state.Task1000ms_SecondCounter % 100 = 0 then
        (match i.position with
         | some fix => [Event.ttn_transmitMessage fix 1 false]
         | none => [])
      else [])
    ∧ ((Task1000ms_iteration s i).events.any isTransmit = true ↔
        ((Task1000ms_iteration s i).state.Task1000ms_SecondCounter % 100 = 0 ∧
          i.position.isSome = true)) := by
  have h := filter_transmit_iteration s i
  rw [iteration_counter]
  refine ⟨h, ?_⟩
  rw [any_iff_filter_ne_nil, h]
  generalize (s.Task1000ms_SecondCounter + 1) % 2 ^ 16 = t
  by_cases hc : t % 100 = 0
  · cases hp : i.position <;> simp [hc]
  · simp [hc]

/-- C3. In every iteration of `Task1000ms`, with `t` the value of
`Task1000ms_SecondCounter` during the iteration, the shutdown-and-sleep sequence is
executed if and only if `t % 150 = 0`.  When it is executed, the hardware actions of
the iteration are exactly, in this order, `Display_DeInit`, LDO2 off, LDO3 off,
`Axp192_DeInit` and `esp_deep_sleep`; the sequence closes the iteration (nothing is
called after the deep-sleep call), and no call on the DCDC1 rail is made in any
iteration. -/
theorem C3_shutdown_iff_tick_multiple_of_150 (s : TaskState) (i : TickInput) :
    ((Task1000ms_iteration s i).events.filter isShutdownAction =
      if (Task1000ms_iteration s i).state.Task1000ms_SecondCounter % 150 = 0 then
        [Event.Display_DeInit,
         Event.Axp192_SetLdo2State Axp192_StateType.Axp192_Off,
         Event.Axp192_SetLdo3State Axp192_StateType.Axp192_Off,
         Event.Axp192_DeInit,
         Event.esp_deep_sleep (SLEEP_TIME_FROM_MINUTES 60)]
      else [])
    ∧ ((Task1000ms_iteration s i).events.any isShutdownAction = true ↔
        (Task1000ms_iteration s i).state.Task1000ms_SecondCounter % 150 = 0)
    ∧ ((Task1000ms_iteration s i).asleep = true ↔
        (Task1000ms_iteration s i).state.Task1000ms_SecondCounter % 150 = 0)
    ∧ ((if (Task1000ms_iteration s i).state.Task1000ms_SecondCounter % 150 = 0 then
          shutdownSequence else []) <:+ (Task1000ms_iteration s i).events)
    ∧ (Task1000ms_iteration s i).events.filter isDcDc1 = [] := by
  have h := filter_shutdown_iteration s i
  rw [iteration_counter, iteration_asleep]
  refine ⟨h, ?_, ?_, sleepGate_suffix s i, filter_dcdc1_iteration s i⟩
  · rw [any_iff_filter_ne_nil, h]
    generalize (s.Task1000ms_SecondCounter + 1) % 2 ^ 16 = t
    by_cases hc : t % 150 = 0
    · simp [hc]
    · simp [hc]
  · simp

/-- C5. The argument of `esp_deep_sleep`, `SLEEP_TIME_FROM_MINUTES(60llu)`, is
`60 * 60 * 1000 * 1000` evaluated in 64-bit unsigned arithmetic: none of the three
products wraps, the value is 3 600 000 000, and every `esp_deep_sleep` call made by
an iteration of `Task1000ms` carries this value. -/
theorem C5_sleep_duration_is_3600000000_microseconds (s : TaskState) (i : TickInput) :
    SLEEP_TIME_FROM_MINUTES 60 = 3600000000
    ∧ mulU64 60 60 = 60 * 60
    ∧ mulU64 (60 * 60) 1000 = 60 * 60 * 1000
    ∧ mulU64 (60 * 60 * 1000) 1000 = 60 * 60 * 1000 * 1000
    ∧ ∀ d, Event.esp_deep_sleep d ∈ (Task1000ms_iteration s i).events → d = 3600000000 := by
  refine ⟨by decide, by decide, by decide, by decide, ?_⟩
  intro d hd
  have hm : Event.esp_deep_sleep d ∈ (Task1000ms_iteration s i).events.filter isShutdownAction :=
    List.mem_filter.2 ⟨hd, rfl⟩
  rw [filter_shutdown_iteration] at hm
  have hv : SLEEP_TIME_FROM_MINUTES 60 = 3600000000 := by decide
  by_cases hc : (s.Task1000ms_SecondCounter + 1) % 2 ^ 16 % 150 = 0
  · rw [if_pos hc] at hm
    simp at hm
    rw [hm, hv]
  · rw [if_neg hc] at hm
    simp at hm

/-- C9. For every previous reading and every current stack high-water mark,
`TaskStackMonitoring` prints the stack-margin line if and only if the current
watermark differs from the previous reading, and in both cases returns the current
watermark.  In `Task1000ms` the returned value is stored in `remainingTaskStack`,
which is the previous reading passed to the call of the next iteration, and the
stack-margin lines of an iteration are those of this one call. -/
theorem C9_stack_log_iff_watermark_changed (lastRemainingStack current : Nat)
    (s : TaskState) (i j : TickInput) :
    ((TaskStackMonitoring current lastRemainingStack).1 =
      if current ≠ lastRemainingStack then [Event.printf_FreeStack current] else [])
    ∧ (TaskStackMonitoring current lastRemainingStack).2 = current
    ∧ (Task1000ms_iteration s i).state.remainingTaskStack = i.stackHighWaterMark
    ∧ (Task1000ms_iteration s i).events.filter isStackLog =
        (TaskStackMonitoring i.stackHighWaterMark s.remainingTaskStack).1
    ∧ (Task1000ms_iteration (Task1000ms_iteration s i).state j).events.filter isStackLog =
        (TaskStackMonitoring j.stackHighWaterMark i.stackHighWaterMark).1 :=
  ⟨rfl, rfl, rfl, filter_stacklog_iteration s i,
    filter_stacklog_iteration (Task1000ms_iteration s i).state j⟩

/-! ## The first iteration -/

/-- C4, counterexample. When the first sample read is 65535 mV, 65535 mA, 65535 mA and
4294967295 mAh, every field equals its sentinel: the first iteration makes no display
call at all (its only call is the stack-margin line). -/
theorem C4_first_tick_sentinel_sample_not_drawn :
    (Task1000ms_iteration Task1000ms_init
      { stackHighWaterMark := 3000, batteryVoltage := 65535, chargeCurrent := 65535,
        dischargeCurrent := 65535, batteryCharge := 4294967295, position := none }).events
      = [Event.printf_FreeStack 3000]
    ∧ (Task1000ms_iteration Task1000ms_init
      { stackHighWaterMark := 3000, batteryVoltage := 65535, chargeCurrent := 65535,
        dischargeCurrent := 65535, batteryCharge := 4294967295, position := none
        }).events.filter isDisplayDraw = [] := by
  decide

/-- C4, amended. For every first sample that differs from the sentinel values
(65535, 65535, 65535, 4294967295) in at least one field, the first iteration of
`Task1000ms` performs the display redraw. -/
theorem C4_first_tick_redraws_unless_sentinel (i : TickInput)
    (h : readTelemetry i ≠ sentinel) :
    (Task1000ms_iteration Task1000ms_init i).events.filter isDisplayDraw =
      redraw (readTelemetry i)
    ∧ (Task1000ms_iteration Task1000ms_init i).events.any isDisplayDraw = true := by
  have hf := filter_draw_iteration Task1000ms_init i
  rw [lastSample_init, if_pos h] at hf
  refine ⟨hf, ?_⟩
  rw [any_iff_filter_ne_nil, hf]
  simp [redraw]

/-- C4, witness: a first sample of 4100 mV, 0 mA, 120 mA, 1500 mAh. -/
theorem C4_first_tick_redraws_witness :
    readTelemetry
        { stackHighWaterMark := 3000, batteryVoltage := 4100, chargeCurrent := 0,
          dischargeCurrent := 120, batteryCharge := 1500, position := none } ≠ sentinel
    ∧ (Task1000ms_iteration Task1000ms_init
        { stackHighWaterMark := 3000, batteryVoltage := 4100, chargeCurrent := 0,
          dischargeCurrent := 120, batteryCharge := 1500, position := none
          }).events.any isDisplayDraw = true :=
  ⟨by decide, (C4_first_tick_redraws_unless_sentinel _ (by decide)).2⟩

/-! ## The loop over a process lifetime -/

theorem loop_nil (s : TaskState) : Task1000ms_loop s [] = [] := rfl

theorem loop_cons (s : TaskState) (i : TickInput) (rest : List TickInput) :
    Task1000ms_loop s (i :: rest) =
      (Task1000ms_iteration s i).record ::
        (if (Task1000ms_iteration s i).asleep then []
         else Task1000ms_loop (Task1000ms_iteration s i).state rest) := rfl

theorem counter_step (s : TaskState) (i : TickInput) (h : s.Task1000ms_SecondCounter < 150) :
    (Task1000ms_iteration s i).state.Task1000ms_SecondCounter =
      s.Task1000ms_SecondCounter + 1 := by
  rw [iteration_counter]
  exact Nat.mod_eq_of_lt (by omega)

theorem asleep_step (s : TaskState) (i : TickInput) (h : s.Task1000ms_SecondCounter < 150) :
    (Task1000ms_iteration s i).asleep = decide (s.Task1000ms_SecondCounter + 1 = 150) := by
  rw [iteration_asleep]
  have h1 : (s.Task1000ms_SecondCounter + 1) % 2 ^ 16 = s.Task1000ms_SecondCounter + 1 :=
    Nat.mod_eq_of_lt (by omega)
  rw [h1]
  by_cases h2 : s.Task1000ms_SecondCounter + 1 = 150
  · simp [h2]
  · have h3 : ¬ (s.Task1000ms_SecondCounter + 1) % 150 = 0 := by omega
    simp [h2, h3]

theorem loop_counters : ∀ (inputs : List TickInput) (s : TaskState),
    s.Task1000ms_SecondCounter < 150 →
    (Task1000ms_loop s inputs).map (fun r => r.counter) =
      List.range' (s.Task1000ms_SecondCounter + 1)
        (min inputs.length (150 - s.Task1000ms_SecondCounter)) := by
  intro inputs
  induction inputs with
  | nil => intro s _; simp [loop_nil]
  | cons i rest ih =>
    intro s hs
    rw [loop_cons, asleep_step s i hs]
    have hc := counter_step s i hs
    by_cases h : s.Task1000ms_SecondCounter + 1 = 150
    · have hm : min (i :: rest).length (150 - s.Task1000ms_SecondCounter) = 1 := by
        simp only [List.length_cons]; omega
      rw [hm]
      simp [h, IterationResult.record, hc]
    · have hlt : (Task1000ms_iteration s i).state.Task1000ms_SecondCounter < 150 := by omega
      have hm : min (i :: rest).length (150 - s.Task1000ms_SecondCounter) =
          min rest.length (150 - (Task1000ms_iteration s i).state.Task1000ms_SecondCounter) + 1 := by
        simp only [List.length_cons]; omega
      rw [hm, List.range'_succ]
      simp only [h, decide_False, Bool.false_eq_true, if_false, List.map_cons]
      rw [ih _ hlt, hc]
      simp [IterationResult.record, hc]

theorem loop_invariant (P : TickRecord → Prop)
    (hP : ∀ s i, P (Task1000ms_iteration s i).record) :
    ∀ (inputs : List TickInput) (s : TaskState), ∀ r ∈ Task1000ms_loop s inputs, P r := by
  intro inputs
  induction inputs with
  | nil => intro s r hr; simp [loop_nil] at hr
  | cons i rest ih =>
    intro s r hr
    rw [loop_cons] at hr
    rcases List.mem_cons.1 hr with h | h
    · rw [h]; exact hP s i
    · by_cases ha : (Task1000ms_iteration s i).asleep = true
      · simp [ha] at h
      · simp only [ha, if_false] at h
        exact ih _ r h

theorem lifetime_counter_mem (inputs : List TickInput) :
    ∀ r ∈ Task1000ms inputs, 1 ≤ r.counter ∧ r.counter ≤ 150 := by
  intro r hr
  have hm : r.counter ∈ (Task1000ms inputs).map (fun r => r.counter) :=
    List.mem_map_of_mem _ hr
  unfold Task1000ms at hm
  rw [loop_counters inputs Task1000ms_init (by decide)] at hm
  have hz : Task1000ms_init.Task1000ms_SecondCounter = 0 := rfl
  rw [hz, List.mem_range'_1] at hm
  omega

theorem lifetime_counters (inputs : List TickInput) :
    (Task1000ms inputs).map (fun r => r.counter) = List.range' 1 (min inputs.length 150) :=
  loop_counters inputs Task1000ms_init (by decide)

theorem lifetime_asleep (inputs : List TickInput) :
    ∀ r ∈ Task1000ms inputs, (r.asleep = true ↔ r.counter = 150) := by
  intro r hr
  have h1 : r.asleep = decide (r.counter % 150 = 0) :=
    loop_invariant (fun r => r.asleep = decide (r.counter % 150 = 0))
      (fun _ _ => rfl) inputs Task1000ms_init r hr
  have h2 := lifetime_counter_mem inputs r hr
  rw [h1, decide_eq_true_iff]
  omega

theorem lifetime_query (inputs : List TickInput) :
    ∀ r ∈ Task1000ms inputs, r.events.filter isPositionQuery =
      if r.counter % 100 = 0 then [Event.Neo6_GetGeodeticPositionSolution] else [] :=
  loop_invariant
    (fun r => r.events.filter isPositionQuery =
      if r.counter % 100 = 0 then [Event.Neo6_GetGeodeticPositionSolution] else [])
    (fun s i => filter_query_iteration s i) inputs Task1000ms_init

theorem lifetime_transmit (inputs : List TickInput) :
    ∀ r ∈ Task1000ms inputs, (r.events.filter isTransmit).length ≤
      if r.counter % 100 = 0 then 1 else 0 := by
  refine loop_invariant
    (fun r => (r.events.filter isTransmit).length ≤ if r.counter % 100 = 0 then 1 else 0)
    ?_ inputs Task1000ms_init
  intro s i
  show ((Task1000ms_iteration s i).events.filter isTransmit).length ≤
    if (s.Task1000ms_SecondCounter + 1) % 2 ^ 16 % 100 = 0 then 1 else 0
  rw [filter_transmit_iteration]
  generalize (s.Task1000ms_SecondCounter + 1) % 2 ^ 16 = t
  by_cases hc : t % 100 = 0
  · cases i.position <;> simp [hc]
  · simp [hc]

set_option maxRecDepth 20000 in
theorem hundredth_tick_once :
    ((List.range' 1 150).map (fun k => if k % 100 = 0 then 1 else 0)).sum = 1 := by
  decide

theorem stable_loop_no_draw (c : TelemetrySample) :
    ∀ (rest : List TickInput) (s : TaskState), s.lastSample = c →
      (∀ i ∈ rest, readTelemetry i = c) →
      ∀ r ∈ Task1000ms_loop s rest, r.events.filter isDisplayDraw = [] := by
  intro rest
  induction rest with
  | nil => intro s _ _ r hr; simp [loop_nil] at hr
  | cons i rest ih =>
    intro s hs hconst r hr
    have hi : readTelemetry i = c := hconst i (List.mem_cons_self _ _)
    rw [loop_cons] at hr
    rcases List.mem_cons.1 hr with h | h
    · rw [h]
      show (Task1000ms_iteration s i).events.filter isDisplayDraw = []
      rw [filter_draw_iteration, hi, hs]
      simp
    · by_cases ha : (Task1000ms_iteration s i).asleep = true
      · simp [ha] at h
      · simp only [ha, if_false] at h
        refine ih (Task1000ms_iteration s i).state ?_ ?_ r h
        · rw [iteration_lastSample, hi]
        · intro j hj
          exact hconst j (List.mem_cons_of_mem _ hj)

theorem filter_flatten_nil (p : Event → Bool) :
    ∀ (L : List (List Event)), (∀ l ∈ L, l.filter p = []) → L.flatten.filter p = [] := by
  intro L
  induction L with
  | nil => intro _; rfl
  | cons a t ih =>
    intro h
    rw [List.flatten_cons, List.filter_append, h a (List.mem_cons_self _ _),
      ih (fun l hl => h l (List.mem_cons_of_mem _ hl))]
    rfl

theorem no_draw_summary (records : List TickRecord)
    (h : ∀ r ∈ records, r.events.filter isDisplayDraw = []) :
    updatedTicks records = [] ∧ (allEvents records).filter isDisplayDraw = [] := by
  constructor
  · unfold updatedTicks
    have hf : records.filter (fun r => r.events.any isDisplayDraw) = [] := by
      rw [List.filter_eq_nil_iff]
      intro r hr
      have := h r hr
      rw [any_iff_filter_ne_nil]
      simp [this]
    rw [hf]
    rfl
  · unfold allEvents
    apply filter_flatten_nil
    intro l hl
    obtain ⟨r, hr, rfl⟩ := List.mem_map.1 hl
    exact h r hr

/-! ## Claims about a process lifetime -/

/-- C7. In a process lifetime of `Task1000ms` (the loop run from the initial values
on any sequence of driver results, `esp_deep_sleep` ending the run), the counter
`Task1000ms_SecondCounter` equals `k` during the `k`-th iteration: the counter values
of the successive iterations are 1, 2, 3, ... without gap or repetition.  The 16-bit
increment never wraps (as long as the counter is below 150 it grows by exactly one),
no iteration sees a value above 150, the iteration with value 150 is the one that
ends in deep sleep, and no run has more than 150 iterations. -/
theorem C7_counter_equals_iteration_number (inputs : List TickInput) :
    (Task1000ms inputs).map (fun r => r.counter) = List.range' 1 (min inputs.length 150)
    ∧ (∀ k, ((Task1000ms inputs).map (fun r => r.counter))[k]? =
        if k < min inputs.length 150 then some (k + 1) else none)
    ∧ (Task1000ms inputs).length = min inputs.length 150
    ∧ (∀ r ∈ Task1000ms inputs,
        1 ≤ r.counter ∧ r.counter ≤ 150 ∧ r.counter < 2 ^ 16 ∧
          (r.asleep = true ↔ r.counter = 150))
    ∧ (∀ s i, s.Task1000ms_SecondCounter < 150 →
        (Task1000ms_iteration s i).state.Task1000ms_SecondCounter =
          s.Task1000ms_SecondCounter + 1) := by
  have hc := lifetime_counters inputs
  refine ⟨hc, ?_, ?_, ?_, fun s i h => counter_step s i h⟩
  · intro k
    rw [hc]
    by_cases hk : k < min inputs.length 150
    · rw [if_pos hk, List.getElem?_range' _ _ hk]
      simp [Nat.add_comm]
    · rw [if_neg hk]
      exact List.getElem?_eq_none (by simp only [List.length_range']; omega)
  · have hl := congrArg List.length hc
    simpa using hl
  · intro r hr
    have h1 := lifetime_counter_mem inputs r hr
    refine ⟨h1.1, h1.2, ?_, lifetime_asleep inputs r hr⟩
    have : (150 : Nat) < 2 ^ 16 := by decide
    omega

/-- C10. In every complete process lifetime of `Task1000ms` (150 iterations, the last
one ending in deep sleep), whatever the telemetry and whatever the outcomes of the
position query, `Neo6_GetGeodeticPositionSolution` is called exactly once and
`ttn.transmitMessage` at most once; an iteration that makes either call is the one
with counter 100; and the iteration that shuts down (counter 150) makes neither. -/
theorem C10_one_position_query_per_lifetime (inputs : List TickInput)
    (h : 150 ≤ inputs.length) :
    (Task1000ms inputs).length = 150
    ∧ countCalls isPositionQuery (Task1000ms inputs) = 1
    ∧ countCalls isTransmit (Task1000ms inputs) ≤ 1
    ∧ (∀ r ∈ Task1000ms inputs,
        (r.events.any isPositionQuery = true ∨ r.events.any isTransmit = true) →
          r.counter = 100)
    ∧ (∀ r ∈ Task1000ms inputs, r.asleep = true →
        r.counter = 150 ∧ r.events.filter isPositionQuery = [] ∧
          r.events.filter isTransmit = [])
    ∧ (∃ r ∈ Task1000ms inputs, r.counter = 150 ∧ r.asleep = true) := by
  have hmin : min inputs.length 150 = 150 := by omega
  have hc := lifetime_counters inputs
  rw [hmin] at hc
  have hq := lifetime_query inputs
  have ht := lifetime_transmit inputs
  have hsum : ((Task1000ms inputs).map
      (fun r => if r.counter % 100 = 0 then 1 else 0)).sum = 1 := by
    have e : (Task1000ms inputs).map (fun r => if r.counter % 100 = 0 then 1 else 0) =
        ((Task1000ms inputs).map (fun r => r.counter)).map
          (fun k => if k % 100 = 0 then 1 else 0) := by
      rw [List.map_map]; rfl
    rw [e, hc]
    exact hundredth_tick_once
  have hquery : countCalls isPositionQuery (Task1000ms inputs) = 1 := by
    unfold countCalls
    rw [← hsum]
    congr 1
    apply List.map_congr_left
    intro r hr
    rw [hq r hr]
    split <;> rfl
  have htrans : countCalls isTransmit (Task1000ms inputs) ≤ 1 := by
    unfold countCalls
    rw [← hsum]
    exact List.sum_le_sum (fun r hr => ht r hr)
  refine ⟨?_, hquery, htrans, ?_, ?_, ?_⟩
  · have hl := congrArg List.length hc
    simpa using hl
  · intro r hr hor
    have hb := lifetime_counter_mem inputs r hr
    have h100 : r.counter % 100 = 0 := by
      by_contra hne
      have h1 := hq r hr
      have h2 := ht r hr
      rw [if_neg hne] at h1 h2
      rcases hor with ho | ho
      · rw [any_iff_filter_ne_nil] at ho; exact ho h1
      · rw [any_iff_filter_ne_nil] at ho
        exact ho (List.length_eq_zero.1 (Nat.le_zero.1 h2))
    omega
  · intro r hr ha
    have h150 := (lifetime_asleep inputs r hr).1 ha
    have h1 := hq r hr
    have h2 := ht r hr
    have hne : ¬ r.counter % 100 = 0 := by omega
    rw [if_neg hne] at h1 h2
    exact ⟨h150, h1, List.length_eq_zero.1 (Nat.le_zero.1 h2)⟩
  · have hm : 150 ∈ (Task1000ms inputs).map (fun r => r.counter) := by
      rw [hc, List.mem_range'_1]; omega
    obtain ⟨r, hr, hrc⟩ := List.mem_map.1 hm
    exact ⟨r, hr, hrc, (lifetime_asleep inputs r hr).2 hrc⟩

/-- C10, witness: a lifetime in which every iteration reads the same values and the
position query at tick 100 succeeds. -/
theorem C10_one_position_query_witness :
    150 ≤ (List.replicate 150
      ({ stackHighWaterMark := 3000, batteryVoltage := 4100, chargeCurrent := 0,
         dischargeCurrent := 120, batteryCharge := 1500,
         position := some { bytes := [1, 2, 3] } } : TickInput)).length
    ∧ countCalls isPositionQuery (Task1000ms (List.replicate 150
      ({ stackHighWaterMark := 3000, batteryVoltage := 4100, chargeCurrent := 0,
         dischargeCurrent := 120, batteryCharge := 1500,
         position := some { bytes := [1, 2, 3] } } : TickInput))) = 1 :=
  ⟨by simp, (C10_one_position_query_per_lifetime _ (by simp)).2.1⟩

/-- C6, counterexample. A telemetry stream that is constant over ticks 1 to 99 with
the values 65535 mV, 65535 mA, 65535 mA, 4294967295 mAh: the 99 iterations run, and
none of them updates the display (no tick is an update tick and no drawing call is
made), instead of one update at tick 1. -/
theorem C6_constant_sentinel_stream_never_drawn :
    (Task1000ms (List.replicate 99
      ({ stackHighWaterMark := 3000, batteryVoltage := 65535, chargeCurrent := 65535,
         dischargeCurrent := 65535, batteryCharge := 4294967295,
         position := none } : TickInput))).length = 99
    ∧ updatedTicks (Task1000ms (List.replicate 99
      ({ stackHighWaterMark := 3000, batteryVoltage := 65535, chargeCurrent := 65535,
         dischargeCurrent := 65535, batteryCharge := 4294967295,
         position := none } : TickInput))) = []
    ∧ (allEvents (Task1000ms (List.replicate 99
      ({ stackHighWaterMark := 3000, batteryVoltage := 65535, chargeCurrent := 65535,
         dischargeCurrent := 65535, batteryCharge := 4294967295,
         position := none } : TickInput)))).filter isDisplayDraw = [] := by
  refine ⟨?_, ?_⟩
  · have hl := congrArg List.length (lifetime_counters (List.replicate 99
      ({ stackHighWaterMark := 3000, batteryVoltage := 65535, chargeCurrent := 65535,
         dischargeCurrent := 65535, batteryCharge := 4294967295,
         position := none } : TickInput)))
    simpa using hl
  · apply no_draw_summary
    apply stable_loop_no_draw sentinel _ Task1000ms_init lastSample_init
    intro i hi
    rw [List.eq_of_mem_replicate hi]
    decide

/-- C6, amended. For every telemetry stream that is constant over ticks 1 to 99 and
whose constant sample differs from the sentinel values (65535, 65535, 65535,
4294967295) in at least one field, running `Task1000ms` for ticks 1 through 99
produces exactly one display update in total, at tick 1: tick 1 is the only tick that
draws, and the drawing calls of the whole run are those of one redraw. -/
theorem C6_constant_telemetry_one_update_at_tick_1 (inputs : List TickInput)
    (c : TelemetrySample) (hlen : inputs.length = 99)
    (hconst : ∀ i ∈ inputs, readTelemetry i = c) (hc : c ≠ sentinel) :
    (Task1000ms inputs).length = 99
    ∧ updatedTicks (Task1000ms inputs) = [1]
    ∧ (allEvents (Task1000ms inputs)).filter isDisplayDraw = redraw c := by
  have hl : (Task1000ms inputs).length = 99 := by
    have hl := congrArg List.length (lifetime_counters inputs)
    rw [hlen] at hl
    simpa using hl
  refine ⟨hl, ?_⟩
  match inputs, hlen, hconst with
  | i0 :: rest, _, hconst =>
    have hi : readTelemetry i0 = c := hconst i0 (List.mem_cons_self _ _)
    have hdraw : (Task1000ms_iteration Task1000ms_init i0).events.filter isDisplayDraw =
        redraw c := by
      rw [filter_draw_iteration, lastSample_init, hi, if_pos hc]
    have hany : (Task1000ms_iteration Task1000ms_init i0).events.any isDisplayDraw = true := by
      rw [any_iff_filter_ne_nil, hdraw]
      simp [redraw]
    have htail := stable_loop_no_draw c rest (Task1000ms_iteration Task1000ms_init i0).state
      (by rw [iteration_lastSample, hi]) (fun j hj => hconst j (List.mem_cons_of_mem _ hj))
    have hsum := no_draw_summary _ htail
    have hrun : Task1000ms (i0 :: rest) =
        (Task1000ms_iteration Task1000ms_init i0).record ::
          Task1000ms_loop (Task1000ms_iteration Task1000ms_init i0).state rest := rfl
    rw [hrun]
    constructor
    · have h1 := hsum.1
      unfold updatedTicks at h1 ⊢
      rw [List.filter_cons]
      have hany2 : (Task1000ms_iteration Task1000ms_init i0).record.events.any isDisplayDraw
          = true := hany
      rw [if_pos hany2, List.map_cons, h1]
      rfl
    · unfold allEvents
      rw [List.map_cons, List.flatten_cons, List.filter_append]
      have h2 := hsum.2
      unfold allEvents at h2
      rw [h2, List.append_nil]
      exact hdraw

/-- C6, witness: ninety-nine readings of 4100 mV, 0 mA, 120 mA, 1500 mAh. -/
theorem C6_constant_telemetry_witness :
    updatedTicks (Task1000ms (List.replicate 99
      ({ stackHighWaterMark := 3000, batteryVoltage := 4100, chargeCurrent := 0,
         dischargeCurrent := 120, batteryCharge := 1500,
         position := none } : TickInput))) = [1] :=
  (C6_constant_telemetry_one_update_at_tick_1 _
    { batteryVoltage := 4100, chargeCurrent := 0, dischargeCurrent := 120,
      batteryCharge := 1500 }
    (by simp)
    (fun i hi => by rw [List.eq_of_mem_replicate hi]; decide)
    (by decide)).2.1

/-! ## The text of the four lines -/

theorem decimal_length_le (v e : Nat) (he : 0 < e) (hv : v < 10 ^ e) :
    (decimal v).length ≤ e :=
  Nat.toDigitsCore_length 10 (by decide) (v + 1) v e hv he

theorem formatD_nat (width v : Nat) : formatD width (v : Int) = rightAligned width v := by
  have h : intChars (v : Int) = decimal v := by
    unfold intChars
    rw [if_neg (by omega)]
    simp
  unfold formatD rightAligned
  rw [h]

theorem rightAligned_length (width v : Nat) :
    (rightAligned width v).length = max width (decimal v).length := by
  unfold rightAligned
  rw [List.length_append, List.length_replicate]
  omega

theorem rightAligned_length_exact (width v : Nat) (hw : 0 < width) (hv : v < 10 ^ width) :
    (rightAligned width v).length = width := by
  rw [rightAligned_length]
  have := decimal_length_le v width hw hv
  omega

theorem snprintf_nat (size : Nat) (label suffix : String) (width v : Nat)
    (h : label.toList.length + max width (decimal v).length + suffix.toList.length
      ≤ size - 1) :
    snprintf size label width suffix (v : Int) =
      label.toList ++ rightAligned width v ++ suffix.toList := by
  unfold snprintf
  rw [formatD_nat]
  apply List.take_of_length_le
  rw [List.length_append, List.length_append, rightAligned_length]
  exact h

theorem asInt32_small (v : Nat) (h : v < 2 ^ 31) : asInt32 v = (v : Int) := by
  unfold asInt32
  have h1 : v % 2 ^ 32 = v := Nat.mod_eq_of_lt (by omega)
  rw [h1, if_pos h]

theorem line_u16 (label suffix : String) (v : Nat) (hv : v < 2 ^ 16)
    (h : label.toList.length + suffix.toList.length ≤ 14) :
    snprintf sizeof_stringBuffer label 4 suffix (v : Int) =
      label.toList ++ rightAligned 4 v ++ suffix.toList := by
  apply snprintf_nat
  have := decimal_length_le v 5 (by decide) (by omega)
  have hs : sizeof_stringBuffer - 1 = 19 := rfl
  omega

/-- C8, counterexample. A first sample of 10000 mV, 0 mA, 0 mA and 1000000000 mAh
triggers a redraw.  The first line is `Ubat: 10000 mV`: the value takes five
characters, not four, so the text is 14 characters long instead of 6 + 4 + 3.  The
fourth line is `Cbat: 1000000000 mA`: the formatted text has 20 characters and the
20-byte buffer keeps 19 of them, so the unit suffix ` mAh` is cut. -/
theorem C8_field_width_grows_and_suffix_is_cut :
    (Task1000ms_iteration Task1000ms_init
      { stackHighWaterMark := 3000, batteryVoltage := 10000, chargeCurrent := 0,
        dischargeCurrent := 0, batteryCharge := 1000000000, position := none
        }).events.filter isDisplayDraw =
      [ Event.Display_Clear,
        Event.Display_DrawString 0 15 "Ubat: 10000 mV".toList,
        Event.Display_DrawString 0 30 "Icharge:    0 mA".toList,
        Event.Display_DrawString 0 45 "Ibat:    0 mA".toList,
        Event.Display_DrawString 0 60 "Cbat: 1000000000 mA".toList,
        Event.Display_SendBuffer ]
    ∧ "Ubat: 10000 mV".toList.length ≠ "Ubat: ".toList.length + 4 + " mV".toList.length
    ∧ "Cbat: 1000000000 mA".toList ≠ "Cbat: ".toList ++ decimal 1000000000 ++ " mAh".toList := by
  decide

/-- C8, amended. For every iteration of `Task1000ms` in which the sample read differs
from the previous one (so that the display is redrawn) and the battery charge read is
below 10^9 mAh, the four lines are drawn at (0,15), (0,30), (0,45), (0,60) and each
text is, uncut by the 20-byte `stringBuffer`, its label, then the decimal value of the
field right-aligned in a field of at least 4 characters (5 for the battery charge),
then its complete unit suffix ` mV`, ` mA`, ` mA`, ` mAh`.  The field has exactly its
nominal width whenever the value has no more digits than that width (below 10000
for the three 16-bit fields, below 100000 for the battery charge); in general its
length is the larger of the nominal width and the number of digits. -/
theorem C8_redraw_lines_label_value_suffix (s : TaskState) (i : TickInput)
    (hne : readTelemetry i ≠ s.lastSample)
    (hq : (readTelemetry i).batteryCharge < 10 ^ 9) :
    (Task1000ms_iteration s i).events.filter isDisplayDraw =
      [ Event.Display_Clear,
        Event.Display_DrawString 0 15
          ("Ubat: ".toList ++ rightAligned 4 (readTelemetry i).batteryVoltage ++ " mV".toList),
        Event.Display_DrawString 0 30
          ("Icharge: ".toList ++ rightAligned 4 (readTelemetry i).chargeCurrent ++
            " mA".toList),
        Event.Display_DrawString 0 45
          ("Ibat: ".toList ++ rightAligned 4 (readTelemetry i).dischargeCurrent ++
            " mA".toList),
        Event.Display_DrawString 0 60
          ("Cbat: ".toList ++ rightAligned 5 (readTelemetry i).batteryCharge ++ " mAh".toList),
        Event.Display_SendBuffer ]
    ∧ (∀ width v, (rightAligned width v).length = max width (decimal v).length)
    ∧ (∀ width v, 0 < width → v < 10 ^ width → (rightAligned width v).length = width) := by
  refine ⟨?_, rightAligned_length, rightAligned_length_exact⟩
  rw [filter_draw_iteration, if_pos hne]
  unfold redraw
  have h1 : (readTelemetry i).batteryVoltage < 2 ^ 16 := Nat.mod_lt _ (by decide)
  have h2 : (readTelemetry i).chargeCurrent < 2 ^ 16 := Nat.mod_lt _ (by decide)
  have h3 : (readTelemetry i).dischargeCurrent < 2 ^ 16 := Nat.mod_lt _ (by decide)
  rw [line_u16 "Ubat: " " mV" _ h1 (by decide), line_u16 "Icharge: " " mA" _ h2 (by decide),
    line_u16 "Ibat: " " mA" _ h3 (by decide), asInt32_small _ (by omega)]
  have h4 : snprintf sizeof_stringBuffer "Cbat: " 5 " mAh"
      ((readTelemetry i).batteryCharge : Int) =
      "Cbat: ".toList ++ rightAligned 5 (readTelemetry i).batteryCharge ++ " mAh".toList := by
    apply snprintf_nat
    have hd := decimal_length_le (readTelemetry i).batteryCharge 9 (by decide) hq
    have hs : sizeof_stringBuffer - 1 = 19 := rfl
    have hl : "Cbat: ".toList.length = 6 := by decide
    have hu : " mAh".toList.length = 4 := by decide
    omega
  rw [h4]

/-- C8, witness: from the initial values, a sample of 4100 mV, 0 mA, 120 mA and
1500 mAh is drawn as `Ubat: 4100 mV`, `Icharge:    0 mA`, `Ibat:  120 mA`,
`Cbat:  1500 mAh`. -/
theorem C8_redraw_lines_witness :
    (Task1000ms_iteration Task1000ms_init
      { stackHighWaterMark := 3000, batteryVoltage := 4100, chargeCurrent := 0,
        dischargeCurrent := 120, batteryCharge := 1500, position := none
        }).events.filter isDisplayDraw =
      [ Event.Display_Clear,
        Event.Display_DrawString 0 15 "Ubat: 4100 mV".toList,
        Event.Display_DrawString 0 30 "Icharge:    0 mA".toList,
        Event.Display_DrawString 0 45 "Ibat:  120 mA".toList,
        Event.Display_DrawString 0 60 "Cbat:  1500 mAh".toList,
        Event.Display_SendBuffer ] :=
  (C8_redraw_lines_label_value_suffix Task1000ms_init
    { stackHighWaterMark := 3000, batteryVoltage := 4100, chargeCurrent := 0,
      dischargeCurrent := 120, batteryCharge := 1500, position := none }
    (by decide) (by decide)).1.trans (by decide)

end TBeam
